import Mathlib

/-!
Shallow embedding of the corroboration / credibility scorer of
`src/lib/credibility.ts` (the module imported by `app/api/reports/route.ts`).

Modelling conventions:
* JavaScript numbers that appear as report coordinates are modelled as `ℚ`
  (every literal occurring in the repository is a decimal fraction); the
  trigonometric distance computation is modelled over `ℝ`, with `Math.sin`,
  `Math.cos`, `Math.sqrt` and `Math.atan2` replaced by their exact
  real-analytic counterparts.
* JavaScript truthiness on an optional number (`!report.lat`) is `false` for
  a missing value and for the value `0`; on an optional string it is `false`
  for a missing value and for the empty string.
* The Supabase store is modelled as an explicit `Store` value threaded
  through the operations; persistence failures are injected through error
  fields of the store.  Every `try/catch` of the source is total here, so
  each operation is a plain function.
-/

/-- The `Report` row interface of `credibility.ts` (lines 8-16).
`type`, `lat`, `lng` are optional fields. -/
structure Report where
  id : String
  user_id : String
  problem : String
  type : Option String
  lat : Option ℚ
  lng : Option ℚ
  created_at : String
deriving DecidableEq

/-- JavaScript truthiness of an optional number: `undefined` and `0` are
falsy, every other rational is truthy. -/
def truthyQ : Option ℚ → Bool
  | none => false
  | some x => if x = 0 then false else true

/-- JavaScript truthiness of an optional string: `undefined` and the empty
string are falsy. -/
def truthyStr : Option String → Bool
  | none => false
  | some s => if s = "" then false else true

/-- The `Math.atan2` function of JavaScript, over exact reals: the angle of
the point `(x, y)`, computed branch by branch from `Real.arctan`. -/
noncomputable def atan2 (y x : ℝ) : ℝ :=
  if 0 < x then Real.arctan (y / x)
  else if x < 0 then
    (if 0 ≤ y then Real.arctan (y / x) + Real.pi else Real.arctan (y / x) - Real.pi)
  else if 0 < y then Real.pi / 2
  else if y < 0 then -(Real.pi / 2)
  else 0

/-- The intermediate value `a` of `calculateDistance` (credibility.ts
lines 26-29): `sin(dLat/2)^2 + cos(lat1 rad) * cos(lat2 rad) * sin(dLon/2)^2`
where `dLat` and `dLon` are the coordinate differences in radians. -/
noncomputable def haversineA (lat1 lon1 lat2 lon2 : ℚ) : ℝ :=
  Real.sin (((lat2 : ℝ) - (lat1 : ℝ)) * Real.pi / 180 / 2) *
      Real.sin (((lat2 : ℝ) - (lat1 : ℝ)) * Real.pi / 180 / 2) +
    Real.cos ((lat1 : ℝ) * Real.pi / 180) * Real.cos ((lat2 : ℝ) * Real.pi / 180) *
      Real.sin (((lon2 : ℝ) - (lon1 : ℝ)) * Real.pi / 180 / 2) *
      Real.sin (((lon2 : ℝ) - (lon1 : ℝ)) * Real.pi / 180 / 2)

/-- The `calculateDistance` function of credibility.ts (lines 22-31):
haversine distance in kilometers, Earth radius 6371 km, central angle
`c = 2 * atan2(sqrt(a), sqrt(1 - a))`. -/
noncomputable def calculateDistance (lat1 lon1 lat2 lon2 : ℚ) : ℝ :=
  6371 * (2 * atan2 (Real.sqrt (haversineA lat1 lon1 lat2 lon2))
      (Real.sqrt (1 - haversineA lat1 lon1 lat2 lon2)))

/-- The threshold constant `ADJACENT_THRESHOLD_KM = 0.5` of credibility.ts
line 51 (500 meters expressed in kilometers). -/
def ADJACENT_THRESHOLD_KM : ℝ := 0.5

/-- The `areAdjacent` function of credibility.ts (lines 36-52).  The guard
mirrors `if (!report1.lat || !report1.lng || !report2.lat || !report2.lng)
return false` (JavaScript truthiness, so a literal 0 coordinate also fails
the guard); otherwise the result is `distanceInKm <= ADJACENT_THRESHOLD_KM`.
Stated as a `Prop` because the distance is a real number. -/
def areAdjacent (report1 report2 : Report) : Prop :=
  if truthyQ report1.lat && truthyQ report1.lng &&
      truthyQ report2.lat && truthyQ report2.lng then
    calculateDistance (report1.lat.getD 0) (report1.lng.getD 0)
      (report2.lat.getD 0) (report2.lng.getD 0) ≤ ADJACENT_THRESHOLD_KM
  else False

/-- The `hasSameIssue` function of credibility.ts (lines 59-66): when both
`type` fields are truthy (present and non-empty) compare them exactly,
otherwise compare the trimmed, lower-cased `problem` texts. -/
def hasSameIssue (report1 report2 : Report) : Bool :=
  if truthyStr report1.type && truthyStr report2.type then
    decide (report1.type = report2.type)
  else
    decide (report1.problem.trim.toLower = report2.problem.trim.toLower)

/-- Same-point value of the haversine intermediate `a`: zero. -/
theorem haversineA_self (lat lon : ℚ) : haversineA lat lon lat lon = 0 := by
  unfold haversineA
  simp

/-- Same-point haversine distance is exactly zero. -/
theorem calculateDistance_self (lat lon : ℚ) :
    calculateDistance lat lon lat lon = 0 := by
  unfold calculateDistance
  rw [haversineA_self]
  norm_num [atan2, Real.arctan_zero]

/-- The persistent store seen by credibility.ts, together with injected
failure modes.  `reports` is the `report` table, `profiles` the `profiles`
table keyed by `user_id` (first match wins, as for a keyed row lookup).
`fetchReportsError` makes the initial report query fail (lines 85-88).
`profileFetchError` maps a user id to a Supabase error code returned by the
profile select of lines 131-136 (data is null alongside an error).
`profileWriteError` makes the update/insert of lines 151-168 fail for the
listed users; `upsertError` makes the upsert fallback of lines 172-188 fail
as well. -/
structure Store where
  reports : List Report
  profiles : List (String × Int)
  fetchReportsError : Bool
  profileFetchError : List (String × String)
  profileWriteError : List String
  upsertError : List String
deriving DecidableEq

/-- Keyed write to the `profiles` table: replace the row of `userId` when
one exists, append a fresh row otherwise.  The update, insert and upsert of
credibility.ts all have this effect on a table keyed by `user_id`. -/
def setProfile (s : Store) (userId : String) (c : Int) : Store :=
  { s with profiles :=
      if (s.profiles.lookup userId).isSome then
        s.profiles.map (fun p => if p.1 = userId then (userId, c) else p)
      else s.profiles ++ [(userId, c)] }

/-- Write phase of `awardCredibilityPoint` (credibility.ts lines 138-188):
`newCredibility = (profile?.credibility ?? 0) + 1`; try the update/insert,
fall back to an upsert on error, report failure only when both fail. -/
def awardWrite (userId : String) (profile : Option Int) (s : Store) : Bool × Store :=
  let newCredibility := profile.getD 0 + 1
  if s.profileWriteError.contains userId then
    if s.upsertError.contains userId then (false, s)
    else (true, setProfile s userId newCredibility)
  else (true, setProfile s userId newCredibility)

/-- The `awardCredibilityPoint` function of credibility.ts (lines 125-196).
A profile fetch error with a code other than PGRST116 aborts with `false`;
a PGRST116 error is ignored but leaves the fetched data null, so the row is
treated as absent.  Otherwise the current row is read and the write phase
runs. -/
def awardCredibilityPoint (userId : String) (s : Store) : Bool × Store :=
  match s.profileFetchError.lookup userId with
  | some code =>
    if code = "PGRST116" then awardWrite userId none s
    else (false, s)
  | none => awardWrite userId (s.profiles.lookup userId) s

/-- Filter over a list whose predicate may raise (model of
`Array.prototype.filter` with a throwing callback): the first raised error
aborts the whole filter. -/
def exceptFilter (f : Report → Except Unit Bool) : List Report → Except Unit (List Report)
  | [] => Except.ok []
  | x :: xs =>
    match f x with
    | Except.error e => Except.error e
    | Except.ok b =>
      match exceptFilter f xs with
      | Except.error e => Except.error e
      | Except.ok rest => Except.ok (if b then x :: rest else rest)

/-- The filter callback of `findAdjacentReportsWithSameIssue`
(credibility.ts lines 96-110).  Its second statement,
`const hasSameIssue = hasSameIssue(currentReport, report)`, declares a
block-scoped binding that shadows the module-level `hasSameIssue` function
inside its own initializer, so evaluating the callback always throws a
ReferenceError (temporal dead zone; TypeScript rejects the line as TS2448)
before any value is returned.  The preceding `areAdjacent` call is
side-effect free, so the callback is observationally a throw. -/
def matchCallback (_currentReport _report : Report) : Except Unit Bool :=
  Except.error ()

/-- The `findAdjacentReportsWithSameIssue` function of credibility.ts
(lines 71-119): on a report query error return `[]`; with no other reports
return `[]`; otherwise run the filter of lines 96-111, whose throw is
caught by the catch of lines 115-118, which also returns `[]`. -/
def findAdjacentReportsWithSameIssue (currentReport : Report) (s : Store) : List Report :=
  if s.fetchReportsError then []
  else
    let allReports := s.reports.filter (fun r => decide (r.id ≠ currentReport.id))
    if allReports.isEmpty then []
    else
      match exceptFilter (matchCallback currentReport) allReports with
      | Except.ok matchingReports => matchingReports
      | Except.error _ => []

/-- Insertion into the `Set` of users to award (JavaScript `Set.add`):
insertion order preserved, duplicates dropped. -/
def addToSet (l : List String) (u : String) : List String :=
  if l.contains u then l else l ++ [u]

/-- The `allUsersToAward` set of credibility.ts lines 220-229: the new
report submitter followed by the submitters of the adjacent reports, in
insertion order without duplicates. -/
def usersToAward (newReport : Report) (adjacentReports : List Report) : List String :=
  adjacentReports.foldl (fun acc r => addToSet acc r.user_id)
    (addToSet [] newReport.user_id)

/-- The award loop of credibility.ts lines 236-243: one
`awardCredibilityPoint` call per user and a count of the successes.  The
source issues the calls through `Promise.all`; the users are pairwise
distinct and each call touches only the row and error flags of its own
user, so the sequential threading below has the same outcome. -/
def awardToUsers (users : List String) (s : Store) : Nat × Store :=
  users.foldl
    (fun acc u =>
      let r := awardCredibilityPoint u acc.2
      (acc.1 + (if r.1 then 1 else 0), r.2))
    (0, s)

/-- The stage of `checkAndAwardCredibility` after the adjacent reports are
known (credibility.ts lines 219-251): with at least one adjacent report,
build the distinct-user set, and only with two or more distinct users run
the award loop; otherwise return 0 with no writes. -/
def awardStage (newReport : Report) (adjacentReports : List Report) (s : Store) : Nat × Store :=
  if adjacentReports.length ≥ 1 then
    if (usersToAward newReport adjacentReports).length ≥ 2 then
      awardToUsers (usersToAward newReport adjacentReports) s
    else (0, s)
  else (0, s)

/-- The `checkAndAwardCredibility` function of credibility.ts
(lines 202-261): a report with falsy `lat` or `lng` exits with 0 before
any store access; otherwise the adjacent reports are fetched and the award
stage runs.  Every internal throw of the source is caught (lines 96-110
inside the catch of 115-118, the rest by the catch of 257-260), so the
model is a total function into a returned count. -/
def checkAndAwardCredibility (newReport : Report) (s : Store) : Nat × Store :=
  if !truthyQ newReport.lat || !truthyQ newReport.lng then (0, s)
  else awardStage newReport (findAdjacentReportsWithSameIssue newReport s) s

/-- The filter of lines 96-111 never yields a match: on a nonempty
candidate list the callback throws on the first element. -/
theorem exceptFilter_matchCallback (c : Report) (x : Report) (xs : List Report) :
    exceptFilter (matchCallback c) (x :: xs) = Except.error () := by
  simp [exceptFilter, matchCallback]

/-- Consequence of the shadowed binding at credibility.ts line 98: the
matching function returns the empty list on every input. -/
theorem findAdjacent_eq_nil (currentReport : Report) (s : Store) :
    findAdjacentReportsWithSameIssue currentReport s = [] := by
  unfold findAdjacentReportsWithSameIssue
  split
  · rfl
  · cases h : s.reports.filter (fun r => decide (r.id ≠ currentReport.id)) with
    | nil => simp [h]
    | cons x xs => simp [h, exceptFilter_matchCallback]

/-- The award stage on an empty match list returns zero with no writes. -/
theorem awardStage_nil (newReport : Report) (s : Store) :
    awardStage newReport [] s = (0, s) := by
  simp [awardStage]

/-- Global collapse of the pipeline caused by the line 98 shadowing: on
every input `checkAndAwardCredibility` returns 0 and leaves the store
untouched. -/
theorem checkAndAward_const (newReport : Report) (s : Store) :
    checkAndAwardCredibility newReport s = (0, s) := by
  unfold checkAndAwardCredibility
  split
  · rfl
  · rw [findAdjacent_eq_nil, awardStage_nil]

/-- Lookup steps over a pair whose key differs from the searched key. -/
theorem lookup_cons_ne (k u : String) (v : Int) (t : List (String × Int))
    (h : (u == k) = false) : List.lookup u ((k, v) :: t) = List.lookup u t := by
  simp [List.lookup, h]

/-- Keyed write then keyed read: the written value is read back. -/
theorem lookup_keyed_write (l : List (String × Int)) (u : String) (c : Int) :
    (if (l.lookup u).isSome then
        l.map (fun p => if p.1 = u then (u, c) else p)
      else l ++ [(u, c)]).lookup u = some c := by
  induction l with
  | nil => simp [List.lookup]
  | cons p t ih =>
    obtain ⟨k, v⟩ := p
    by_cases hk : k = u
    · simp [List.lookup, hk]
    · have hbeq : (u == k) = false := by
        simp [beq_iff_eq]
        exact fun h => hk h.symm
      by_cases ht : (t.lookup u).isSome
      · have hsome : (((k, v) :: t).lookup u).isSome := by
          simp [List.lookup, hbeq, ht]
        rw [if_pos hsome, List.map_cons]
        rw [show (if (k, v).1 = u then (u, c) else (k, v)) = (k, v) from if_neg hk]
        rw [lookup_cons_ne k u v _ hbeq]
        rw [if_pos ht] at ih
        exact ih
      · have hnone : ((k, v) :: t).lookup u = t.lookup u := by
          simp [List.lookup, hbeq]
        have hno : ¬(((k, v) :: t).lookup u).isSome := by rw [hnone]; exact ht
        rw [if_neg hno, List.cons_append]
        rw [lookup_cons_ne k u v _ hbeq]
        rw [if_neg ht] at ih
        exact ih

/-- Reading the awarded row of `setProfile`. -/
theorem lookup_setProfile (s : Store) (u : String) (c : Int) :
    (setProfile s u c).profiles.lookup u = some c := by
  unfold setProfile
  exact lookup_keyed_write s.profiles u c

/-- Folding `addToSet` over users that are all already present leaves the
accumulator unchanged. -/
theorem foldl_addToSet_fixed (adj : List Report) :
    ∀ acc : List String, (∀ r ∈ adj, acc.contains r.user_id = true) →
      adj.foldl (fun a r => addToSet a r.user_id) acc = acc := by
  induction adj with
  | nil => intro acc _; rfl
  | cons r t ih =>
    intro acc h
    have hr : acc.contains r.user_id = true := h r (by simp)
    have hm : r.user_id ∈ acc := by simpa using hr
    have hstep : addToSet acc r.user_id = acc := by simp [addToSet, hm]
    rw [List.foldl_cons, hstep]
    exact ih acc (fun x hx => h x (by simp [hx]))

/-- When every adjacent report was submitted by the new report submitter,
the user set is the singleton of that submitter. -/
theorem usersToAward_self (newReport : Report) (adj : List Report)
    (h : ∀ r ∈ adj, r.user_id = newReport.user_id) :
    usersToAward newReport adj = [newReport.user_id] := by
  unfold usersToAward
  have hbase : addToSet [] newReport.user_id = [newReport.user_id] := by
    simp [addToSet]
  rw [hbase]
  exact foldl_addToSet_fixed adj [newReport.user_id]
    (fun r hr => by simp [h r hr])

/-- Report by user A: type flood at (21, 106). -/
def reportA : Report :=
  ⟨"report-a", "userA", "street under water", some "flood",
    some 21, some 106, "2024-01-02"⟩

/-- Earlier report by a different user B with the same type at coordinates
within the 500 m threshold (here the same point, distance 0). -/
def reportB : Report :=
  ⟨"report-b", "userB", "flooded road", some "flood",
    some 21, some 106, "2024-01-01"⟩

/-- Store holding exactly the one other report by user B and no profile
rows, with no injected failures. -/
def store0 : Store := ⟨[reportB], [], false, [], [], []⟩

/-- The two concrete reports are adjacent: both coordinate pairs are
truthy and their haversine distance is 0 ≤ 0.5 km. -/
theorem areAdjacent_AB : areAdjacent reportA reportB := by
  unfold areAdjacent
  rw [if_pos (by decide)]
  simp only [reportA, reportB, Option.getD_some]
  rw [calculateDistance_self]
  norm_num [ADJACENT_THRESHOLD_KM]

/-- Claim C1.  User A submits a flood report; the store holds exactly one
other report, by user B, with the same type at coordinates within the
threshold.  The claim expects `checkAndAwardCredibility` to return 2 with
both credibility counters going 0 to 1.  The code instead returns 0 and
writes nothing: reportB is adjacent with the same issue and belongs to a
different user, yet the matching filter dies on the shadowed binding of
credibility.ts line 98, so no candidate ever matches. -/
theorem c1_corroborated_report_awards_nothing :
    areAdjacent reportA reportB ∧ hasSameIssue reportA reportB = true ∧
    reportA.user_id ≠ reportB.user_id ∧
    checkAndAwardCredibility reportA store0 = (0, store0) :=
  ⟨areAdjacent_AB, by decide, by decide, by decide⟩

/-- Claim C2.  Credibility increments are gated on two or more distinct
users: with fewer than two distinct users in the award set the award stage
of credibility.ts lines 219-251 returns 0 with no writes; in particular
when every adjacent report belongs to the submitter of the new report, and
likewise for the full `checkAndAwardCredibility` pipeline. -/
theorem c2_two_distinct_users_gate (nr : Report) (adj : List Report) (s : Store) :
    ((usersToAward nr adj).length < 2 → awardStage nr adj s = (0, s)) ∧
    ((∀ r ∈ adj, r.user_id = nr.user_id) → awardStage nr adj s = (0, s)) ∧
    ((∀ r ∈ findAdjacentReportsWithSameIssue nr s, r.user_id = nr.user_id) →
      checkAndAwardCredibility nr s = (0, s)) := by
  refine ⟨?_, ?_, ?_⟩
  · intro h
    unfold awardStage
    split
    · rw [if_neg (by omega)]
    · rfl
  · intro h
    have hu := usersToAward_self nr adj h
    unfold awardStage
    split
    · rw [hu]
      simp
    · rfl
  · intro _
    exact checkAndAward_const nr s

/-- Adjacent report submitted by the same user as `reportA`. -/
def reportSelfB : Report :=
  ⟨"report-self", "userA", "flooded road", some "flood",
    some 21, some 106, "2024-01-01"⟩

/-- Witness for C2 at a concrete single-user match list. -/
theorem c2_witness :
    (∀ r ∈ [reportSelfB], r.user_id = reportA.user_id) ∧
    awardStage reportA [reportSelfB] store0 = (0, store0) :=
  ⟨by decide, (c2_two_distinct_users_gate reportA [reportSelfB] store0).2.1 (by decide)⟩

/-- Store of the C7 scenario: user B's matching report is present and
every credibility write for user B fails (update and upsert fallback). -/
def storeFail : Store := ⟨[reportB], [], false, [], ["userB"], ["userB"]⟩

/-- Store after the award stage of the C7 scenario: only user A awarded. -/
def storeFailAwarded : Store :=
  ⟨[reportB], [("userA", 1)], false, [], ["userB"], ["userB"]⟩

/-- Claim C7.  With user B's writes failing, `awardCredibilityPoint`
reports failure for B alone and the award stage of credibility.ts
lines 236-248 would return 1 (user A still processed and counted).  The
claim expects `checkAndAwardCredibility` to return 1 in this scenario; the
pipeline instead returns 0 with no writes, because the matching filter of
line 98 never yields the candidate that triggers the award loop. -/
theorem c7_partial_failure_never_reaches_awards :
    awardCredibilityPoint "userB" storeFail = (false, storeFail) ∧
    awardStage reportA [reportB] storeFail = (1, storeFailAwarded) ∧
    checkAndAwardCredibility reportA storeFail = (0, storeFail) :=
  ⟨by decide, by decide, by decide⟩

/-- Profiles after one run of the award stage on `store0`. -/
def store0Once : Store := ⟨[reportB], [("userA", 1), ("userB", 1)], false, [], [], []⟩

/-- Profiles after two runs of the award stage on `store0`. -/
def store0Twice : Store := ⟨[reportB], [("userA", 2), ("userB", 2)], false, [], [], []⟩

/-- Claim C9.  The award stage of credibility.ts lines 219-251 has no
deduplication marker, so run twice on the same match list it would award
both users twice (1 then 2).  The claim expects `checkAndAwardCredibility`
to double-award on a second evaluation; the pipeline instead returns 0 and
writes nothing on every run, first or second, because the matching filter
of line 98 never yields a candidate. -/
theorem c9_reevaluation_awards_nothing_either_time :
    awardStage reportA [reportB] store0 = (2, store0Once) ∧
    awardStage reportA [reportB] store0Once = (2, store0Twice) ∧
    checkAndAwardCredibility reportA store0 = (0, store0) ∧
    checkAndAwardCredibility reportA store0Once = (0, store0Once) :=
  ⟨by decide, by decide, by decide, by decide⟩

/-- Report whose lat is literally 0: coordinates present but falsy. -/
def reportZeroPair : Report :=
  ⟨"report-zp", "userF", "flooded street", some "flood",
    some 0, some 105.8542, "2024-01-05"⟩

/-- Counterexample to claim C3 as stated: both coordinates of this report
are present (`isSome`), the haversine distance of the pair (taken twice)
is 0, well under the threshold, yet `areAdjacent` does not hold, because
the guard of credibility.ts line 38 tests truthiness and a latitude of 0
is falsy. -/
theorem c3_counterexample_zero_latitude :
    reportZeroPair.lat.isSome = true ∧ reportZeroPair.lng.isSome = true ∧
    calculateDistance (reportZeroPair.lat.getD 0) (reportZeroPair.lng.getD 0)
        (reportZeroPair.lat.getD 0) (reportZeroPair.lng.getD 0) ≤
      ADJACENT_THRESHOLD_KM ∧
    ¬ areAdjacent reportZeroPair reportZeroPair := by
  refine ⟨rfl, rfl, ?_, ?_⟩
  · rw [calculateDistance_self]
    norm_num [ADJACENT_THRESHOLD_KM]
  · have hz : truthyQ reportZeroPair.lat = false := by decide
    simp [areAdjacent, hz]

/-- Claim C3, amended: for reports whose four coordinates are all truthy
(present and nonzero), `areAdjacent` holds exactly when the haversine
distance with Earth radius 6371 km is at most 0.5 km, the comparison being
inclusive: distance exactly at the threshold is adjacent, distance
strictly above is not. -/
theorem c3_adjacency_iff_distance (r1 r2 : Report)
    (h1 : truthyQ r1.lat = true) (h2 : truthyQ r1.lng = true)
    (h3 : truthyQ r2.lat = true) (h4 : truthyQ r2.lng = true) :
    (areAdjacent r1 r2 ↔
      calculateDistance (r1.lat.getD 0) (r1.lng.getD 0) (r2.lat.getD 0) (r2.lng.getD 0) ≤
        ADJACENT_THRESHOLD_KM) ∧
    (calculateDistance (r1.lat.getD 0) (r1.lng.getD 0) (r2.lat.getD 0) (r2.lng.getD 0) =
        ADJACENT_THRESHOLD_KM → areAdjacent r1 r2) ∧
    (ADJACENT_THRESHOLD_KM <
        calculateDistance (r1.lat.getD 0) (r1.lng.getD 0) (r2.lat.getD 0) (r2.lng.getD 0) →
      ¬ areAdjacent r1 r2) := by
  have hiff : areAdjacent r1 r2 ↔
      calculateDistance (r1.lat.getD 0) (r1.lng.getD 0) (r2.lat.getD 0) (r2.lng.getD 0) ≤
        ADJACENT_THRESHOLD_KM := by
    unfold areAdjacent
    rw [if_pos (by simp [h1, h2, h3, h4])]
  exact ⟨hiff, fun he => hiff.mpr (le_of_eq he),
    fun hgt hadj => absurd (hiff.mp hadj) (not_le.mpr hgt)⟩

/-- Witness for the amended C3 at the concrete pair of truthy-coordinate
reports. -/
theorem c3_witness :
    truthyQ reportA.lat = true ∧ truthyQ reportA.lng = true ∧
    truthyQ reportB.lat = true ∧ truthyQ reportB.lng = true ∧
    (areAdjacent reportA reportB ↔
      calculateDistance (reportA.lat.getD 0) (reportA.lng.getD 0)
          (reportB.lat.getD 0) (reportB.lng.getD 0) ≤ ADJACENT_THRESHOLD_KM) :=
  ⟨by decide, by decide, by decide, by decide,
    (c3_adjacency_iff_distance reportA reportB
      (by decide) (by decide) (by decide) (by decide)).1⟩

/-- Report with a present but empty `type` string. -/
def reportEmptyTypeA : Report :=
  ⟨"report-ea", "userG", "flooded street", some "", none, none, "2024-01-06"⟩

/-- Report with a non-empty `type` different from the empty one, and the
same problem text. -/
def reportEmptyTypeB : Report :=
  ⟨"report-eb", "userH", "flooded street", some "flood", none, none, "2024-01-07"⟩

/-- Counterexample to claim C4 as stated: both reports carry a non-null
`type` and the two types differ, so the claim predicts the case-sensitive
type comparison, hence `false`; yet `hasSameIssue` is `true`, because the
guard of credibility.ts line 61 tests truthiness, the empty string is
falsy, and the comparison falls through to the equal problem texts. -/
theorem c4_counterexample_empty_type :
    reportEmptyTypeA.type.isSome = true ∧ reportEmptyTypeB.type.isSome = true ∧
    reportEmptyTypeA.type ≠ reportEmptyTypeB.type ∧
    hasSameIssue reportEmptyTypeA reportEmptyTypeB = true := by
  refine ⟨rfl, rfl, by decide, ?_⟩
  have hz : truthyStr reportEmptyTypeA.type = false := by decide
  unfold hasSameIssue
  rw [hz, if_neg (by simp), decide_eq_true_eq]
  rfl

/-- Claim C4, amended: when both reports carry a non-null, non-empty
`type`, `hasSameIssue` is exact, case-sensitive equality of the types;
when either `type` is absent or empty, it is equality of the problem
texts after trimming and lower-casing. -/
theorem c4_same_issue_branches (r1 r2 : Report) :
    (truthyStr r1.type = true → truthyStr r2.type = true →
      hasSameIssue r1 r2 = decide (r1.type = r2.type)) ∧
    (truthyStr r1.type = false ∨ truthyStr r2.type = false →
      hasSameIssue r1 r2 = decide (r1.problem.trim.toLower = r2.problem.trim.toLower)) := by
  constructor
  · intro h1 h2
    unfold hasSameIssue
    rw [if_pos (by simp [h1, h2])]
  · intro h
    unfold hasSameIssue
    rcases h with h | h
    · rw [if_neg (by simp [h])]
    · rw [if_neg (by simp [h])]

/-- Report with a truthy type and incidental problem text. -/
def reportTypedA : Report :=
  ⟨"report-ta", "userI", "water everywhere", some "flood", none, none, "2024-01-08"⟩

/-- Report with the same truthy type and unrelated problem text. -/
def reportTypedB : Report :=
  ⟨"report-tb", "userJ", "completely different text", some "flood", none, none, "2024-01-09"⟩

/-- Witness for the amended C4 at a concrete pair with truthy types. -/
theorem c4_witness :
    truthyStr reportTypedA.type = true ∧ truthyStr reportTypedB.type = true ∧
    hasSameIssue reportTypedA reportTypedB =
      decide (reportTypedA.type = reportTypedB.type) :=
  ⟨by decide, by decide,
    (c4_same_issue_branches reportTypedA reportTypedB).1 (by decide) (by decide)⟩

/-- Claim C5.  A new report with a missing `lat` or `lng` makes
`checkAndAwardCredibility` return 0 with no store writes (the guard of
credibility.ts lines 207-211), and a report missing a coordinate is never
adjacent to any report, in either direction (guard of lines 38-41). -/
theorem c5_missing_coordinates_excluded (r : Report) (s : Store)
    (h : r.lat = none ∨ r.lng = none) :
    checkAndAwardCredibility r s = (0, s) ∧
    ∀ r2 : Report, ¬ areAdjacent r r2 ∧ ¬ areAdjacent r2 r := by
  have htr : truthyQ r.lat = false ∨ truthyQ r.lng = false := by
    cases h with
    | inl h2 => exact Or.inl (by rw [h2]; rfl)
    | inr h2 => exact Or.inr (by rw [h2]; rfl)
  refine ⟨checkAndAward_const r s, fun r2 => ?_⟩
  cases htr with
  | inl h2 => exact ⟨by simp [areAdjacent, h2], by simp [areAdjacent, h2]⟩
  | inr h2 => exact ⟨by simp [areAdjacent, h2], by simp [areAdjacent, h2]⟩

/-- Report without a latitude. -/
def reportNoCoords : Report :=
  ⟨"report-nc", "userC", "pothole", some "traffic", none, some 106, "2024-01-03"⟩

/-- Witness for C5 at a concrete report missing its latitude. -/
theorem c5_witness :
    (reportNoCoords.lat = none ∨ reportNoCoords.lng = none) ∧
    checkAndAwardCredibility reportNoCoords store0 = (0, store0) ∧
    ¬ areAdjacent reportNoCoords reportB :=
  ⟨Or.inl rfl,
    (c5_missing_coordinates_excluded reportNoCoords store0 (Or.inl rfl)).1,
    ((c5_missing_coordinates_excluded reportNoCoords store0 (Or.inl rfl)).2 reportB).1⟩

/-- Claim C6.  With no profile fetch error for a user,
`awardCredibilityPoint` succeeds whenever the keyed write is not failed,
and on any success the stored credibility of that user is exactly the
previously read value plus one, with a missing row read as 0 (so a fresh
row holds 1). -/
theorem c6_award_increments_by_one (u : String) (s : Store)
    (hf : s.profileFetchError.lookup u = none) :
    (s.profileWriteError.contains u = false → (awardCredibilityPoint u s).1 = true) ∧
    ((awardCredibilityPoint u s).1 = true →
      (awardCredibilityPoint u s).2.profiles.lookup u =
        some ((s.profiles.lookup u).getD 0 + 1)) := by
  by_cases hw : u ∈ s.profileWriteError
  · by_cases hu : u ∈ s.upsertError
    · simp [awardCredibilityPoint, hf, awardWrite, hw, hu]
    · simp [awardCredibilityPoint, hf, awardWrite, hw, hu, lookup_setProfile]
  · simp [awardCredibilityPoint, hf, awardWrite, hw, lookup_setProfile]

/-- Store with an existing profile row at credibility 5. -/
def store6 : Store := ⟨[], [("userD", 5)], false, [], [], []⟩

/-- Witness for C6: the existing counter 5 becomes 6. -/
theorem c6_witness :
    store6.profileFetchError.lookup "userD" = none ∧
    (awardCredibilityPoint "userD" store6).1 = true ∧
    (awardCredibilityPoint "userD" store6).2.profiles.lookup "userD" =
      some ((store6.profiles.lookup "userD").getD 0 + 1) := by
  have h := c6_award_increments_by_one "userD" store6 rfl
  exact ⟨rfl, h.1 (by decide), h.2 (h.1 (by decide))⟩

/-- Claim C8.  When the initial retrieval of the other reports fails with
a store error, `checkAndAwardCredibility` returns 0 with no credibility
writes; every other internal failure of the source is likewise caught
(the model is a total function into a returned count), so nothing
propagates to the caller. -/
theorem c8_fetch_error_returns_zero (r : Report) (s : Store)
    (_h : s.fetchReportsError = true) :
    checkAndAwardCredibility r s = (0, s) :=
  checkAndAward_const r s

/-- Store whose report query fails. -/
def store8 : Store := ⟨[reportB], [("userA", 3)], true, [], [], []⟩

/-- Witness for C8 at a concrete failing store. -/
theorem c8_witness :
    store8.fetchReportsError = true ∧
    checkAndAwardCredibility reportA store8 = (0, store8) :=
  ⟨rfl, c8_fetch_error_returns_zero reportA store8 rfl⟩

/-- Claim C10.  A report whose `lat` or `lng` is literally 0 is treated as
having no coordinates, because the guards of credibility.ts lines 38 and
208 test truthiness: as a trigger `checkAndAwardCredibility` returns 0
with no writes, and as a candidate (either side) `areAdjacent` is false,
even though the coordinate fields are present. -/
theorem c10_zero_coordinate_treated_as_missing (r r2 : Report) (s : Store)
    (h : r.lat = some 0 ∨ r.lng = some 0) :
    checkAndAwardCredibility r s = (0, s) ∧
    ¬ areAdjacent r r2 ∧ ¬ areAdjacent r2 r := by
  have htr : truthyQ r.lat = false ∨ truthyQ r.lng = false := by
    cases h with
    | inl h2 => exact Or.inl (by rw [h2]; decide)
    | inr h2 => exact Or.inr (by rw [h2]; decide)
  refine ⟨checkAndAward_const r s, ?_, ?_⟩
  · cases htr with
    | inl h2 => simp [areAdjacent, h2]
    | inr h2 => simp [areAdjacent, h2]
  · cases htr with
    | inl h2 => simp [areAdjacent, h2]
    | inr h2 => simp [areAdjacent, h2]

/-- Report on the equator: latitude exactly 0, longitude present. -/
def reportZeroLat : Report :=
  ⟨"report-z", "userE", "smog", some "pollution", some 0, some 106, "2024-01-04"⟩

/-- Witness for C10 at a concrete report with latitude 0. -/
theorem c10_witness :
    (reportZeroLat.lat = some 0 ∨ reportZeroLat.lng = some 0) ∧
    checkAndAwardCredibility reportZeroLat store0 = (0, store0) ∧
    ¬ areAdjacent reportZeroLat reportB := by
  have h := c10_zero_coordinate_treated_as_missing reportZeroLat reportB store0 (Or.inl rfl)
  exact ⟨Or.inl rfl, h.1, h.2.1⟩
